import Mathlib

/-!
Verification of the branching-questionnaire core of the data-flow
assessment tool (`src/app.py`, `src/questions.py`, `src/session_manager.py`,
`src/policy_generator.py`).

The Python code is shallowly embedded:

* Python runtime values (the contents of the answer map, JSON data) become
  the inductive type `Value`; Python's truthiness, `==`, `in`, iteration and
  `len` become the `py*` helpers below, with operations that can raise a
  runtime error returning `Except PyErr`.
* Streamlit widgets are the presentation boundary (out of the core):
  the render functions are modelled as one steady-state pass in which every
  widget reports the value derived from the currently stored answer or the
  widget default, with no pending user event (no form submission, no button
  press).  Mutations of `st.session_state.answers` performed during such a
  pass are modelled by threading the answer map.
* `json.loads` / `json.dumps` are the (stdlib) serialization boundary: a
  parse outcome is passed to `import_session` as `Except String Value`, and
  `export_session` produces the structured `Value` that `json.dumps` would
  serialize.  For the value shapes the session manager permits, the
  stdlib round-trips structures exactly.
* Wall-clock timestamps (`datetime.now()`) are passed as an explicit
  argument.
-/

/-- A Python runtime value as it can occur in the answer map or in parsed
JSON: `None`, booleans, integers, floats (kept as exact rationals; no claim
exercises float arithmetic or float formatting), strings, lists and
string-keyed dicts. -/
inductive Value where
  | none : Value
  | bool (b : Bool) : Value
  | int (n : Int) : Value
  | float (q : Rat) : Value
  | str (s : String) : Value
  | list (xs : List Value) : Value
  | dict (entries : List (String × Value)) : Value
deriving Repr

/-- A Python runtime error (the dynamic-typing failures the source code can
hit: `TypeError`, `AttributeError`, `KeyError`). -/
inductive PyErr where
  | typeError (msg : String) : PyErr
  | attributeError (msg : String) : PyErr
  | keyError (msg : String) : PyErr
deriving Repr, DecidableEq

/-- The numeric value of a Python number, `bool` included (`True == 1`). -/
def numVal : Value → Option Rat
  | .bool b => some (if b then 1 else 0)
  | .int n => some (n : Rat)
  | .float q => some q
  | _ => Option.none

mutual

/-- Python `==` on runtime values: numbers (bool/int/float) compare by
numeric value, strings and lists structurally, `None == None`, and values
of unrelated types are unequal.  Dicts compare entrywise in insertion
order (Python compares dicts order-insensitively, but no condition, rule
or validation in the source ever applies `==` to a dict-valued answer, so
only the entrywise case is exercised). -/
def pyEq : Value → Value → Bool
  | .none, .none => true
  | .str s, .str t => s == t
  | .list xs, .list ys => pyEqList xs ys
  | .dict xs, .dict ys => pyEqDict xs ys
  | a, b =>
    match numVal a, numVal b with
    | some x, some y => x == y
    | _, _ => false

/-- Elementwise Python `==` on lists. -/
def pyEqList : List Value → List Value → Bool
  | [], [] => true
  | x :: xs, y :: ys => pyEq x y && pyEqList xs ys
  | _, _ => false

/-- Entrywise comparison of dict entry lists: equal keys and `pyEq` values. -/
def pyEqDict : List (String × Value) → List (String × Value) → Bool
  | [], [] => true
  | (k, v) :: xs, (k', v') :: ys => k == k' && pyEq v v' && pyEqDict xs ys
  | _, _ => false

end

/-- Python truthiness (`bool(v)`). -/
def pyBool : Value → Bool
  | .none => false
  | .bool b => b
  | .int n => n != 0
  | .float q => q != 0
  | .str s => s != ""
  | .list xs => !xs.isEmpty
  | .dict entries => !entries.isEmpty

mutual

/-- Python `str(v)` (floats are rendered from the exact rational carried by
the embedding; no claim depends on float formatting). -/
def pyStr : Value → String
  | .none => "None"
  | .bool b => if b then "True" else "False"
  | .int n => toString n
  | .float q => toString q.num ++ "/" ++ toString q.den
  | .str s => s
  | .list xs => "[" ++ String.intercalate ", " (pyReprList xs) ++ "]"
  | .dict kvs => "\x7b" ++ String.intercalate ", " (pyReprDict kvs) ++ "\x7d"

/-- Python `repr` of each element of a list. -/
def pyReprList : List Value → List String
  | [] => []
  | x :: xs => pyRepr x :: pyReprList xs

/-- Python `repr` of each entry of a dict. -/
def pyReprDict : List (String × Value) → List String
  | [] => []
  | (k, v) :: kvs => ("'" ++ k ++ "': " ++ pyRepr v) :: pyReprDict kvs

/-- Python `repr(v)`: like `str` but strings are quoted. -/
def pyRepr : Value → String
  | .str s => "'" ++ s ++ "'"
  | v => pyStr v

end

/-- Python iteration `for x in v`: lists yield their items, strings their
characters (as one-character strings), dicts their keys; other values raise
`TypeError`. -/
def pyIter : Value → Except PyErr (List Value)
  | .list xs => .ok xs
  | .str s => .ok (s.data.map (fun c => .str (String.singleton c)))
  | .dict kvs => .ok (kvs.map (fun kv => .str kv.1))
  | _ => .error (.typeError "object is not iterable")

/-- Python `len(v)`: defined on strings, lists and dicts, `TypeError`
otherwise. -/
def pyLen : Value → Except PyErr Nat
  | .str s => .ok s.length
  | .list xs => .ok xs.length
  | .dict kvs => .ok kvs.length
  | _ => .error (.typeError "object has no len")

/-- Whether `pat` occurs in `l` as a contiguous sublist. -/
def containsSubChars (pat : List Char) : List Char → Bool
  | [] => pat.isEmpty
  | c :: rest => pat.isPrefixOf (c :: rest) || containsSubChars pat rest

/-- Whether `pat` occurs in `s` as a substring (Python `pat in s`). -/
def containsSub (s pat : String) : Bool :=
  pat == "" || containsSubChars pat.data s.data

/-- Replace every (non-overlapping, leftmost-first) occurrence of `pat` in
the character list, with `fuel` bounding the scan length. -/
def replaceChars (pat rep : List Char) : Nat → List Char → List Char
  | _, [] => []
  | 0, l => l
  | fuel + 1, c :: rest =>
    if pat.isPrefixOf (c :: rest) then
      rep ++ replaceChars pat rep fuel ((c :: rest).drop pat.length)
    else
      c :: replaceChars pat rep fuel rest

/-- Python `s.replace(pat, rep)` for a non-empty `pat` (every `pat` the
source substitutes is the literal `"\x7bitem\x7d"`). -/
def pyReplace (s pat rep : String) : String :=
  if pat == "" then s
  else String.mk (replaceChars pat.data rep.data s.data.length s.data)

/-- Python list membership `x in xs` (`any(x == e for e in xs)`). -/
def listMem (x : Value) (xs : List Value) : Bool :=
  xs.any (pyEq x)

/-- Python `x in v` for a general container: list membership, substring
test for strings, key lookup for dicts; non-container right operands and
unhashable left operands on a dict raise `TypeError`. -/
def pyMem (x : Value) : Value → Except PyErr Bool
  | .list xs => .ok (listMem x xs)
  | .str s =>
    match x with
    | .str t => .ok (containsSub s t)
    | _ => .error (.typeError "in <string> requires string as left operand")
  | .dict kvs =>
    match x with
    | .str k => .ok (kvs.any (fun kv => kv.1 == k))
    | .list _ => .error (.typeError "unhashable type")
    | .dict _ => .error (.typeError "unhashable type")
    | _ => .ok false
  | _ => .error (.typeError "argument is not a container")

/-- Python `v.lower()`: defined on strings only (`AttributeError`
otherwise); ASCII lowercasing (the comparisons in the source use ASCII
constants). -/
def pyLower : Value → Except PyErr String
  | .str s => .ok s.toLower
  | _ => .error (.attributeError "object has no attribute lower")

/-- Python `v.strip(chars)` on a string: remove the characters of `chars`
from both ends. -/
def pyStrip (s : String) (chars : String) : String :=
  let l := s.data.dropWhile (fun c => chars.data.contains c)
  String.mk ((l.reverse.dropWhile (fun c => chars.data.contains c)).reverse)

/-- The answer map (`st.session_state.answers`): a Python dict from
resolved question id to value, kept in insertion order. -/
abbrev Answers := List (String × Value)

/-- Dict lookup: the value stored at `k`, if any. -/
def lookupV : Answers → String → Option Value
  | [], _ => Option.none
  | (k', v) :: rest, k => if k' == k then some v else lookupV rest k

/-- Python `d.get(k, default)`. -/
def pyGetD (a : Answers) (k : String) (d : Value) : Value :=
  (lookupV a k).getD d

/-- Python `d[k] = v`: overwrite in place (an existing key keeps its
position, a new key is appended). -/
def setKey : Answers → String → Value → Answers
  | [], k, v => [(k, v)]
  | (k', v') :: rest, k, v =>
    if k' == k then (k, v) :: rest else (k', v') :: setKey rest k v

/-- Short-circuiting `any` over a list with an effectful predicate,
matching a Python generator expression inside `any(...)`: elements after
the first `True` are not evaluated. -/
def anyM (xs : List Value) (f : Value → Except PyErr Bool) : Except PyErr Bool :=
  match xs with
  | [] => .ok false
  | x :: rest => do
    let b ← f x
    if b then return true else anyM rest f

/-- A visibility condition of a question (`question["condition"]` in
`src/questions.py`): the referenced question id, an operator string and a
comparison value. -/
structure Condition where
  question_id : String
  operator : String
  value : Value
deriving Repr

/-- A question dict of the catalog (`src/questions.py`).  Child questions
of a (repeated) section are plain questions; the `repeat_for` source and
the child list of a section node live in `CatalogNode` below.  Fields the
code reads with `.get` default like the code does (`question.get("default",
False)` is the toggle default). -/
structure Question where
  id : String
  type : String
  text : String := ""
  help : Option String := Option.none
  required : Bool := false
  store_as_list : Bool := false
  multiline : Bool := false
  options : List String := []
  condition : Option Condition := Option.none
  special_type : Option String := Option.none
  default : Value := .bool false
  max_length : Option Nat := Option.none
  hide_quick_selection : Bool := false
deriving Repr

/-- A top-level node of the `questions` catalog: the plain question fields
plus, for `repeated_section` nodes, the id of the driving list
(`repeat_for`) and the child questions. -/
structure CatalogNode where
  node : Question
  repeat_for : String := ""
  questions : List Question := []
deriving Repr

/-- The `in`-operator dispatch (`src/app.py` line 78): membership of the
stored answer in a list-valued condition value, `false` for non-lists. -/
def inDispatch (answer value : Value) : Bool :=
  match value with
  | .list xs => listMem answer xs
  | _ => false

/-- The `contains`-operator dispatch (`src/app.py` line 80): membership of
the condition value in a list-valued stored answer, equality fallback
otherwise. -/
def containsDispatch (answer value : Value) : Bool :=
  match answer with
  | .list xs => listMem value xs
  | _ => pyEq answer value

/-- The operator dispatch of `should_show_question` (`src/app.py` lines
73-82), with an unknown operator defaulting to visible. -/
def opDispatch (operator : String) (answer value : Value) : Bool :=
  if operator == "==" then pyEq answer value
  else if operator == "!=" then !pyEq answer value
  else if operator == "in" then inDispatch answer value
  else if operator == "contains" then containsDispatch answer value
  else true

/-- `should_show_question` (`src/app.py` lines 49-82): no condition means
visible; a referenced id absent from the answer map means hidden
(fail-closed); otherwise the operator decides. -/
def should_show_question (q : Question) (answers : Answers) : Bool :=
  match q.condition with
  | Option.none => true
  | some c =>
    match lookupV answers c.question_id with
    | Option.none => false
    | some answer => opDispatch c.operator answer c.value

/-- The requirement refinement of `render_question` for a stored answer
(`src/app.py` lines 284-295): a required question's value must
additionally be non-empty by kind (`len(answer) > 0` raises on values
without `len`). -/
def answeredRequirement (q : Question) (answer : Value) : Except PyErr Bool :=
  if q.required then
    if q.type == "multiple_choice" then do
      let n ← pyLen answer
      return decide (0 < n)
    else if q.type == "text" then
      if q.store_as_list then do
        let n ← pyLen answer
        return decide (0 < n)
      else .ok (pyBool answer)
    else if q.type == "toggle" then .ok true
    else .ok true
  else .ok true

/-- The answer check at the end of `render_question` (`src/app.py` lines
281-297): the resolved id must be a key of the answer map, refined by
`answeredRequirement` for required questions. -/
def answered_check (q : Question) (qid : String) (a : Answers) : Except PyErr Bool :=
  match lookupV a qid with
  | Option.none => .ok false
  | some answer => answeredRequirement q answer

/-- Elements of a collected party/processor list must all be strings for
`sorted(list(set(...)))` to succeed; the sorted, duplicate-free result.
(Python would sort a homogeneous non-string list too, but such parties
would make the tab rendering fail right after; every non-string element is
mapped to the error case.) -/
def sortedUniqueStrs (xs : List Value) : Except PyErr (List String) :=
  if xs.all (fun v => match v with | .str _ => true | _ => false) then
    .ok (((xs.filterMap (fun v => match v with | .str s => some s | _ => Option.none)).eraseDups).mergeSort (fun s t => s ≤ t))
  else .error (.typeError "unorderable or unhashable list elements")

/-- `collect_all_responsible_parties` (`src/questions.py` lines 275-301):
flatten every list stored under a `system_responsible_` key, add
`additional_responsible` when the toggle answer is truthy and the value is
a list, then deduplicate and sort. -/
def collect_all_responsible_parties (a : Answers) : Except PyErr (List String) :=
  let fromSystems := (a.filter (fun kv =>
    kv.1.startsWith "system_responsible_" &&
      match kv.2 with | .list _ => true | _ => false)).flatMap
    (fun kv => match kv.2 with | .list xs => xs | _ => [])
  let withAdditional :=
    if pyBool (pyGetD a "has_additional_responsible" (.bool false)) &&
        (lookupV a "additional_responsible").isSome &&
        (match lookupV a "additional_responsible" with
         | some (.list _) => true
         | _ => false) then
      fromSystems ++ (match lookupV a "additional_responsible" with
        | some (.list xs) => xs
        | _ => [])
    else fromSystems
  sortedUniqueStrs withAdditional

/-- `collect_all_processors` (`src/questions.py` lines 304-322): flatten
every list stored under a `processors_` key, deduplicate and sort. -/
def collect_all_processors (a : Answers) : Except PyErr (List String) :=
  sortedUniqueStrs ((a.filter (fun kv =>
    kv.1.startsWith "processors_" &&
      match kv.2 with | .list _ => true | _ => false)).flatMap
    (fun kv => match kv.2 with | .list xs => xs | _ => []))

/-- Per-party loop of `render_responsible_processors_question`
(`src/app.py` lines 328-369): initialize the party's `processors_` list if
missing, then require it non-empty (`len(...) > 0`). -/
def respProcLoop : List String → Answers → Bool → Except PyErr (Answers × Bool)
  | [], a, acc => .ok (a, acc)
  | p :: rest, a, acc => do
    let qid := "processors_" ++ p
    let a1 := if (lookupV a qid).isSome then a else setKey a qid (.list [])
    let n ← pyLen (pyGetD a1 qid (.list []))
    respProcLoop rest a1 (acc && decide (0 < n))

/-- `render_responsible_processors_question` (`src/app.py` lines 300-371)
in a steady-state pass: no parties means unanswered; otherwise every party
needs at least one processor. -/
def render_responsible_processors_question (a : Answers) : Except PyErr (Answers × Bool) := do
  let parties ← collect_all_responsible_parties a
  if parties.isEmpty then return (a, false)
  respProcLoop parties a true

/-- The matrix cell ids of one processor, in the row-major order the
nested purpose/data-type loops of `render_processor_matrix_question`
produce (`f"matrix_.."` keys built with `str`). -/
def matrixCellIds (p : String) (purposes dataTypes : List Value) : List String :=
  purposes.flatMap (fun pu =>
    dataTypes.map (fun dt => "matrix_" ++ p ++ "_" ++ pyStr pu ++ "_" ++ pyStr dt))

/-- The checkbox pass over one processor's cells (`src/app.py` lines
413-443): every cell is rewritten with its current truthiness (`value=
answers.get(qid, False)`), absent cells becoming `False`. -/
def matrixWriteCells (cells : List String) (a : Answers) : Answers :=
  cells.foldl (fun acc qid => setKey acc qid (.bool (pyBool (pyGetD acc qid (.bool false))))) a

/-- Per-processor loop of `render_processor_matrix_question` (`src/app.py`
lines 405-493): write the cells, then require at least one selected cell
per processor (the `selections` re-scan of lines 480-493). -/
def matrixLoop : List String → List Value → List Value → Answers → Bool → Answers × Bool
  | [], _, _, a, acc => (a, acc)
  | p :: rest, purposes, dataTypes, a, acc =>
    let cells := matrixCellIds p purposes dataTypes
    let a1 := matrixWriteCells cells a
    let anySel := cells.any (fun qid => pyBool (pyGetD a1 qid (.bool false)))
    matrixLoop rest purposes dataTypes a1 (acc && anySel)

/-- `render_processor_matrix_question` (`src/app.py` lines 374-498) in a
steady-state pass (no quick-selection button pressed): unanswered while
processors, purposes or data types are missing; otherwise every processor
needs a selected (purpose, data type) cell. -/
def render_processor_matrix_question (a : Answers) : Except PyErr (Answers × Bool) := do
  let processors ← collect_all_processors a
  let purposes := pyGetD a "processing_purposes" (.list [])
  let data_types := pyGetD a "data_types" (.list [])
  if processors.isEmpty || !pyBool purposes || !pyBool data_types then
    return (a, false)
  let pl ← pyIter purposes
  let dl ← pyIter data_types
  return matrixLoop processors pl dl a true

/-- The resolved id of a question instance (`src/app.py` lines 106-108):
the `\x7bitem\x7d` placeholder is substituted only when `item` is truthy
(non-`None`, non-empty) and the id contains the placeholder. -/
def resolveQid (q : Question) (item : Option String) : String :=
  match item with
  | some it =>
    if it != "" && containsSub q.id "\x7bitem\x7d" then pyReplace q.id "\x7bitem\x7d" it
    else q.id
  | Option.none => q.id

/-- `render_question` (`src/app.py` lines 85-297) as one steady-state
widget pass: special questions dispatch to their renderers; otherwise the
stored answer (or the widget default) is re-displayed and written back per
kind, and the requirement check of `answered_check` produces the result.
Kind by kind: a list-valued text question initializes its list and
re-renders the stored entries (iteration raises on a stored value without
`len`/iteration); a plain text question writes the displayed text back
only when truthy; a single choice re-selects the stored option if it is
one of the options and the first option otherwise (`None` for an empty
option list, as `st.radio` yields); a multiple choice writes back the
stored selection filtered to the options; a number writes back
`float(stored)` (0 for non-numbers); a toggle writes back the truthiness
of the stored value or of the question default. -/
def render_question (q : Question) (item : Option String) (a : Answers) : Except PyErr (Answers × Bool) :=
  if q.type == "special" then
    if q.special_type == some "responsible_processors" then
      render_responsible_processors_question a
    else if q.special_type == some "processor_matrix" then
      render_processor_matrix_question a
    else .ok (a, false)
  else
    let qid := resolveQid q item
    if q.type == "text" then
      if q.store_as_list then
        let a1 := if (lookupV a qid).isSome then a else setKey a qid (.list [])
        let stored := pyGetD a1 qid (.list [])
        match (if pyBool stored then pyIter stored else .ok []) with
        | .error e => .error e
        | .ok _ =>
          match answered_check q qid a1 with
          | .error e => .error e
          | .ok b => .ok (a1, b)
      else
        let user_input := pyGetD a qid (.str "")
        let a1 := if pyBool user_input then setKey a qid user_input else a
        match answered_check q qid a1 with
        | .error e => .error e
        | .ok b => .ok (a1, b)
    else if q.type == "single_choice" then
      let sel := match q.options with
        | [] => Value.none
        | o :: _ =>
          match lookupV a qid with
          | some v =>
            match q.options.find? (fun opt => pyEq v (.str opt)) with
            | some opt => Value.str opt
            | Option.none => Value.str o
          | Option.none => Value.str o
      let a1 := setKey a qid sel
      match answered_check q qid a1 with
      | .error e => .error e
      | .ok b => .ok (a1, b)
    else if q.type == "multiple_choice" then
      let sel := match lookupV a qid with
        | some (.list xs) => xs.filter (fun v => q.options.any (fun opt => pyEq v (.str opt)))
        | some v => if q.options.any (fun opt => pyEq v (.str opt)) then [v] else []
        | Option.none => []
      let a1 := setKey a qid (.list sel)
      match answered_check q qid a1 with
      | .error e => .error e
      | .ok b => .ok (a1, b)
    else if q.type == "number" then
      let dv := pyGetD a qid (.int 0)
      let ui := match numVal dv with
        | some x => Value.float x
        | Option.none => Value.int 0
      let a1 := setKey a qid ui
      match answered_check q qid a1 with
      | .error e => .error e
      | .ok b => .ok (a1, b)
    else if q.type == "toggle" then
      let dv := match lookupV a qid with
        | some v => v
        | Option.none => q.default
      let a1 := setKey a qid (.bool (pyBool dv))
      match answered_check q qid a1 with
      | .error e => .error e
      | .ok b => .ok (a1, b)
    else
      match answered_check q qid a with
      | .error e => .error e
      | .ok b => .ok (a, b)

/-- The per-item substitution performed on a child question before its
visibility check (`src/app.py` lines 539-543).  `question.copy()` is a
shallow copy, so the assignment into `modified_question["condition"]`
mutates the condition dict shared with the original child: the updated
child must be carried into the following loop iterations. -/
def substChildCondition (q : Question) (item : String) : Question :=
  match q.condition with
  | some c => { q with condition := some { c with question_id := pyReplace c.question_id "\x7bitem\x7d" item } }
  | Option.none => q

/-- The child-question loop of `render_repeated_section` for one item
(`src/app.py` lines 530-547): substitute the item into each child's
condition (persistently, see `substChildCondition`), render the child when
visible, and conjoin the per-child answer results.  Returns the updated
child list, the updated answer map and the conjunction. -/
def renderChildren : List Question → String → Answers → Bool → Except PyErr (List Question × Answers × Bool)
  | [], _, a, acc => .ok ([], a, acc)
  | q :: rest, item, a, acc =>
    let mq := substChildCondition q item
    if should_show_question mq a then
      match render_question mq (some item) a with
      | .error e => .error e
      | .ok (a1, b) =>
        match renderChildren rest item a1 (acc && b) with
        | .error e => .error e
        | .ok (rest1, a2, acc2) => .ok (mq :: rest1, a2, acc2)
    else
      match renderChildren rest item a acc with
      | .error e => .error e
      | .ok (rest1, a2, acc2) => .ok (mq :: rest1, a2, acc2)

/-- The item loop of `render_repeated_section` (`src/app.py` lines
524-549): each item must be a string (`.strip` raises otherwise), is
stripped of quote/bracket characters, and its child instances are
rendered with the threaded state. -/
def renderItems : List Value → List Question → Answers → Bool → Except PyErr (Answers × Bool)
  | [], _, a, acc => .ok (a, acc)
  | v :: rest, qs, a, acc =>
    match v with
    | .str s =>
      let item := pyStrip (pyStrip (pyStrip s "\"") "[") "]"
      match renderChildren qs item a acc with
      | .error e => .error e
      | .ok (qs1, a1, acc1) => renderItems rest qs1 a1 acc1
    | _ => .error (.attributeError "object has no attribute strip")

/-- `render_repeated_section` (`src/app.py` lines 501-551): an absent or
falsy driving value blocks the section (`return False` before any child is
rendered); otherwise the per-item child instances are rendered and the
section is answered iff all visible instances are. -/
def render_repeated_section (s : CatalogNode) (a : Answers) : Except PyErr (Answers × Bool) :=
  let items := pyGetD a s.repeat_for (.list [])
  if !pyBool items then .ok (a, false)
  else
    match pyIter items with
    | .error e => .error e
    | .ok itemVals => renderItems itemVals s.questions a true

/-- Verdict-collecting mirror of `renderChildren`: the same threaded pass,
returning the list of per-instance answer verdicts of the visible children
instead of their conjunction. -/
def renderChildrenV : List Question → String → Answers → Except PyErr (List Question × Answers × List Bool)
  | [], _, a => .ok ([], a, [])
  | q :: rest, item, a =>
    let mq := substChildCondition q item
    if should_show_question mq a then
      match render_question mq (some item) a with
      | .error e => .error e
      | .ok (a1, b) =>
        match renderChildrenV rest item a1 with
        | .error e => .error e
        | .ok (rest1, a2, vs) => .ok (mq :: rest1, a2, b :: vs)
    else
      match renderChildrenV rest item a with
      | .error e => .error e
      | .ok (rest1, a2, vs) => .ok (mq :: rest1, a2, vs)

/-- Verdict-collecting mirror of `renderItems`. -/
def renderItemsV : List Value → List Question → Answers → Except PyErr (Answers × List Bool)
  | [], _, a => .ok (a, [])
  | v :: rest, qs, a =>
    match v with
    | .str s =>
      let item := pyStrip (pyStrip (pyStrip s "\"") "[") "]"
      match renderChildrenV qs item a with
      | .error e => .error e
      | .ok (qs1, a1, vs1) =>
        match renderItemsV rest qs1 a1 with
        | .error e => .error e
        | .ok (a2, vs2) => .ok (a2, vs1 ++ vs2)
    | _ => .error (.attributeError "object has no attribute strip")

/-- The per-instance verdicts of a repeated section's rendering pass over
the given item list: one boolean per visible (item × child) instance, in
rendering order, together with the final answer map. -/
def sectionVerdicts (s : CatalogNode) (items : List Value) (a : Answers) : Except PyErr (Answers × List Bool) :=
  renderItemsV items s.questions a

/-- Sensitive data categories offered by question 5.1 (`src/questions.py`). -/
def SENSITIVE_DATA_CATEGORIES : List String := [
  "Daten über religiöse, weltanschauliche, politische oder gewerkschaftliche Ansichten oder Tätigkeiten (natürliche Personen)",
  "Daten über die Gesundheit, die Intimsphäre oder die Zugehörigkeit zu einer Rasse oder Ethnie (natürliche Personen)",
  "genetische Daten (natürliche Personen)",
  "biometrische Daten, die eine natürliche Person eindeutig identifizieren (natürliche Personen)",
  "Daten über verwaltungs- und strafrechtliche Verfolgungen oder Sanktionen (natürliche Personen)",
  "Daten über Massnahmen der sozialen Hilfe (natürliche Personen)",
  "Daten über verwaltungs- und strafrechtliche Verfolgungen und Sanktionen (juristische Personen)",
  "Daten über Berufs-, Geschäfts- und Fabrikationsgeheimnisse (juristische Personen)"]

/-- Default entries for the `systems` question (`src/questions.py`). -/
def SYSTEM_DEFAULT : List String := [
  "IT Server 1", "Elektronische Patientenakte", "Laborinformationssystem",
  "Radiologie-PACS", "Apothekenmanagementsystem", "Krankenhausinformationssystem",
  "Abrechnungssystem", "Personalverwaltungssystem", "Terminplanungssystem",
  "Lagerverwaltungssystem"]

/-- Default entries for responsible-party questions (`src/questions.py`). -/
def VERANTWORTLICH_DEFAULT : List String := [
  "Hans Müller", "Ursula Weber", "Marco Bernasconi", "Sophie Dubois",
  "Peter Keller", "Marie Zürcher", "Thomas Schmid", "Heidi Brunner",
  "Daniel Meier", "Anna Steiner"]

/-- Default entries for the per-system purpose question (`src/questions.py`). -/
def SYSTEM_ZIELE_DEFAULT : List String := [
  "zur Verbesserung des Workflows", "zum Speichern von Patientendaten",
  "zur Dokumentation von Behandlungen", "zum Management der Ressourcen",
  "zur Abrechnung von Leistungen", "zur Qualitätssicherung",
  "zum Austausch von Informationen", "zur Planung von Terminen",
  "zum Controlling der Prozesse", "zur Integration verschiedener Systeme"]

/-- Default entries for the processing-purposes question (`src/questions.py`). -/
def BEARBEITUNGS_ZWECK_DEFAULT : List String := [
  "zum Vertragsabschluss oder -abwicklung", "zur Prüfung der Kreditwürdigkeit",
  "zum Wettbewerb", "zur Erfüllung gesetzlicher Grundlagen",
  "zur Erfüllung eines überwiegenden öffentlichen Interesses",
  "zur Erfüllung eines überwiegenden privaten Interesses",
  "zur Einwilligung der betroffenen Person"]

/-- Default entries for the data-types question (`src/questions.py`). -/
def DATENARTEN_DEFAULT : List String := [
  "Patientenstammdaten", "Spenderdaten", "Laborergebnisse",
  "Medizinische Befunde", "Behandlungshistorie", "Medikamentendaten",
  "Versicherungsinformationen", "Impfdaten", "Allergien und Unverträglichkeiten",
  "Familienanamnese", "Bildgebende Diagnostik", "Therapiepläne",
  "Überweisungsdaten", "Notfalldaten", "Pflegedokumentation"]

/-- The child questions of the `system_details` repeated section. -/
def system_details_children : List Question := [
  { id := "system_purpose_\x7bitem\x7d", type := "text",
    text := "Wozu dient das System \x7bitem\x7d?",
    default := .list (SYSTEM_ZIELE_DEFAULT.map .str),
    required := true, multiline := true, max_length := some 500 },
  { id := "system_responsible_\x7bitem\x7d", type := "text",
    text := "Wer ist für das System \x7bitem\x7d verantwortlich?",
    default := .list (VERANTWORTLICH_DEFAULT.map .str),
    required := true, store_as_list := true,
    help := some "Geben Sie die Namen der Verantwortlichen ein.",
    max_length := some 500 }]

/-- The child question of the `data_type_details` repeated section. -/
def data_type_details_children : List Question := [
  { id := "data_categories_\x7bitem\x7d", type := "multiple_choice",
    text := "Welche Datenkategorien sind in der Datenart \x7bitem\x7d enthalten?",
    options := SENSITIVE_DATA_CATEGORIES, required := true,
    help := some "Wählen Sie alle zutreffenden Datenkategorien aus." }]

/-- Question 1 of the catalog (`systems`). -/
def q_systems : Question :=
  { id := "systems", type := "text",
    text := "Welche Systeme werden eingesetzt?", required := true,
    store_as_list := true, default := .list (SYSTEM_DEFAULT.map .str),
    help := some "Geben Sie die Namen der eingesetzten Systeme ein. Bitte auf Hinzufügen clicken, damit die Liste aktualisiert wird.",
    max_length := some 500 }

/-- Question 2 of the catalog (`has_additional_responsible`). -/
def q_has_additional_responsible : Question :=
  { id := "has_additional_responsible", type := "toggle",
    text := "Gibt es Verantwortliche, die nicht Systembetreiber sind?",
    required := true, default := .bool false }

/-- Question 2.1 of the catalog (`additional_responsible`), shown only
when the toggle answer equals `True`. -/
def q_additional_responsible : Question :=
  { id := "additional_responsible", type := "text",
    text := "Namen der zusätzlichen Verantwortlichen:",
    default := .list (VERANTWORTLICH_DEFAULT.map .str),
    required := true, store_as_list := true,
    help := some "Geben Sie die Namen weiterer Verantwortlicher ein.",
    max_length := some 500,
    condition := some { question_id := "has_additional_responsible",
                        operator := "==", value := .bool true } }

/-- Question 3 of the catalog (`responsible_processors`, special). -/
def q_responsible_processors : Question :=
  { id := "responsible_processors", type := "special",
    text := "Je Verantwortlicher: Welche Bearbeiter gehören zu diesem Verantwortlichen?",
    special_type := some "responsible_processors",
    help := some "Diese Frage wird für jeden Verantwortlichen wiederholt." }

/-- Question 4 of the catalog (`processing_purposes`). -/
def q_processing_purposes : Question :=
  { id := "processing_purposes", type := "text",
    text := "Welche Bearbeitungszwecke gibt es?",
    default := .list (BEARBEITUNGS_ZWECK_DEFAULT.map .str),
    required := true, store_as_list := true,
    help := some "Geben Sie die möglichen Bearbeitungszwecke ein getrennt.",
    max_length := some 500 }

/-- Question 5 of the catalog (`data_types`). -/
def q_data_types : Question :=
  { id := "data_types", type := "text",
    text := "Welche Datenarten werden im System behandelt?",
    default := .list (DATENARTEN_DEFAULT.map .str),
    required := true, store_as_list := true,
    help := some "Geben Sie die Datenarten ein", max_length := some 500 }

/-- Question 6 of the catalog (`processor_matrix`, special). -/
def q_processor_matrix : Question :=
  { id := "processor_matrix", type := "special",
    text := "Je Bearbeiter: Zu welchem Zweck bearbeitet dieser Bearbeiter welche Datenarten?",
    special_type := some "processor_matrix",
    help := some "Bitte geben Sie für jeden Bearbeiter an, zu welchem Zweck er welche Datenarten bearbeitet.",
    hide_quick_selection := true }

/-- The `system_details` catalog node (questions 1.1-1.2). -/
def system_details_node : CatalogNode :=
  { node := { id := "system_details", type := "repeated_section" },
    repeat_for := "systems", questions := system_details_children }

/-- The `data_type_details` catalog node (question 5.1). -/
def data_type_details_node : CatalogNode :=
  { node := { id := "data_type_details", type := "repeated_section" },
    repeat_for := "data_types", questions := data_type_details_children }

/-- The `questions` catalog (`src/questions.py` lines 124-245), in order. -/
def questions : List CatalogNode := [
  { node := q_systems },
  system_details_node,
  { node := q_has_additional_responsible },
  { node := q_additional_responsible },
  { node := q_responsible_processors },
  { node := q_processing_purposes },
  { node := q_data_types },
  data_type_details_node,
  { node := q_processor_matrix }]

/-- A materialized policy suggestion (`src/policy_generator.py` lines
170-175): the dict appended for an applicable rule. -/
structure Suggestion where
  id : String
  policy : String
  description : String
  recommendations : List String
deriving Repr, DecidableEq

/-- A recommendation template: a literal string, or a callable of the
answers (the lambda templates of the rule table). -/
inductive Reco where
  | lit (s : String) : Reco
  | fn (f : Answers → Except PyErr String) : Reco

/-- A policy rule of the fixed table (`src/policy_generator.py` lines
27-145): id, condition closure over the answers, title, description and
recommendation templates.  A condition that would raise in Python returns
`Except.error`. -/
structure PolicyRule where
  id : String
  condition : Answers → Except PyErr Bool
  policy : String
  description : String
  recommendations : List Reco

/-- The `gdpr_applicability` rule. -/
def gdpr_applicability_rule : PolicyRule :=
  { id := "gdpr_applicability",
    condition := fun answers => do
      let parties ← pyIter (pyGetD answers "data_parties" (.list []))
      let locs := parties.map (fun party =>
        pyGetD answers ("party_location_" ++ pyStr party) (.str ""))
      anyM locs (fun loc => do
        let l ← pyLower loc
        return ["eu", "eea", "european union", "europe"].contains l),
    policy := "GDPR Compliance",
    description := "Your system processes data of EU/EEA individuals or operates in the EU, requiring GDPR compliance.",
    recommendations := [
      .lit "Appoint a Data Protection Officer (DPO) if required",
      .lit "Implement a robust consent management mechanism",
      .lit "Conduct Data Protection Impact Assessments (DPIA) for high-risk processing",
      .lit "Ensure data subject rights are properly addressed (access, rectification, erasure, etc.)",
      .lit "Maintain records of processing activities"] }

/-- The `special_category_data` rule. -/
def special_category_data_rule : PolicyRule :=
  { id := "special_category_data",
    condition := fun answers => do
      let attrs ← pyIter (pyGetD answers "data_attributes" (.list []))
      anyM attrs (fun attr =>
        pure (pyEq (pyGetD answers ("attribute_type_" ++ pyStr attr) (.str ""))
          (.str "Special Category (Sensitive) Personal Data"))),
    policy := "Special Category Data Protection",
    description := "Your system processes special category (sensitive) personal data, requiring additional safeguards and legal basis.",
    recommendations := [
      .lit "Ensure explicit consent or another specific legal basis for processing special category data",
      .lit "Implement stronger security measures for sensitive data",
      .lit "Minimize the collection and retention of sensitive data",
      .lit "Consider pseudonymization or anonymization techniques",
      .lit "Conduct a Data Protection Impact Assessment (DPIA)"] }

/-- The `cross_border_transfers` rule. -/
def cross_border_transfers_rule : PolicyRule :=
  { id := "cross_border_transfers",
    condition := fun answers =>
      pure (pyEq (pyGetD answers "data_transfers" (.str "")) (.str "Yes")),
    policy := "Cross-Border Data Transfer",
    description := "Your system transfers data across borders, requiring appropriate transfer mechanisms.",
    recommendations := [
      .lit "Implement appropriate data transfer mechanisms (SCCs, BCRs, etc.)",
      .lit "Assess the adequacy of data protection in recipient countries",
      .lit "Include appropriate contractual clauses with data recipients",
      .lit "Document all cross-border data transfers",
      .lit "Monitor changes in international data transfer regulations"] }

/-- The `data_retention` rule; its first recommendation is a template
interpolating the stored retention period. -/
def data_retention_rule : PolicyRule :=
  { id := "data_retention",
    condition := fun answers => pure (lookupV answers "retention_period").isSome,
    policy := "Data Retention Policy",
    description := "Your system should have a clear data retention policy.",
    recommendations := [
      .fn (fun answers => pure ("Implement the stated retention period of '" ++
        pyStr (pyGetD answers "retention_period" (.str "undefined")) ++ "'")),
      .lit "Create a data deletion schedule and automation if possible",
      .lit "Document the justification for the retention period",
      .lit "Implement secure data destruction methods",
      .lit "Regularly review and update the retention policy"] }

/-- The `access_controls` rule. -/
def access_controls_rule : PolicyRule :=
  { id := "access_controls",
    condition := fun answers =>
      pyMem (.str "Access Controls") (pyGetD answers "security_measures" (.list [])),
    policy := "Access Control Policy",
    description := "Your system implements access controls, which should be formalized.",
    recommendations := [
      .lit "Document role-based access control (RBAC) policies",
      .lit "Implement least privilege principles",
      .lit "Regularly review user access rights",
      .lit "Implement strong authentication methods",
      .lit "Create procedures for adding/removing user access"] }

/-- The `encryption` rule. -/
def encryption_rule : PolicyRule :=
  { id := "encryption",
    condition := fun answers =>
      pyMem (.str "Encryption") (pyGetD answers "security_measures" (.list [])),
    policy := "Encryption Policy",
    description := "Your system uses encryption, which should be standardized across the system.",
    recommendations := [
      .lit "Document encryption standards for data at rest and in transit",
      .lit "Implement key management procedures",
      .lit "Regularly update encryption algorithms to industry standards",
      .lit "Consider end-to-end encryption for sensitive communications",
      .lit "Train staff on proper encryption practices"] }

/-- The `data_processor_agreements` rule. -/
def data_processor_agreements_rule : PolicyRule :=
  { id := "data_processor_agreements",
    condition := fun answers => do
      let parties ← pyIter (pyGetD answers "data_parties" (.list []))
      anyM parties (fun party =>
        pure (pyEq (pyGetD answers ("party_role_" ++ pyStr party) (.str ""))
          (.str "Data Processor"))),
    policy := "Data Processing Agreements",
    description := "Your system involves data processors, requiring appropriate agreements.",
    recommendations := [
      .lit "Ensure Data Processing Agreements (DPAs) are in place with all processors",
      .lit "Include provisions for security, confidentiality, and data subject rights",
      .lit "Define processor obligations for data breach notification",
      .lit "Specify audit rights and compliance verification",
      .lit "Address sub-processor engagement requirements"] }

/-- The `incident_response` rule: the constant-true condition and five
literal recommendations. -/
def incident_response_rule : PolicyRule :=
  { id := "incident_response",
    condition := fun _ => pure true,
    policy := "Incident Response Plan",
    description := "All systems should have an incident response plan for data breaches.",
    recommendations := [
      .lit "Create a documented incident response procedure",
      .lit "Define roles and responsibilities during a breach",
      .lit "Establish notification timelines and procedures",
      .lit "Implement a process for breach severity assessment",
      .lit "Conduct regular incident response drills"] }

/-- The fixed rule table `_load_policy_rules` returns
(`src/policy_generator.py` lines 27-145), in order. -/
def policy_rules : List PolicyRule := [
  gdpr_applicability_rule,
  special_category_data_rule,
  cross_border_transfers_rule,
  data_retention_rule,
  access_controls_rule,
  encryption_rule,
  data_processor_agreements_rule,
  incident_response_rule]

/-- Materialize a rule's recommendation templates in order (`src/
policy_generator.py` lines 163-168); a raising template aborts the rule. -/
def processRecs (answers : Answers) : List Reco → Except PyErr (List String)
  | [] => .ok []
  | .lit s :: rest => do
    let out ← processRecs answers rest
    return s :: out
  | .fn f :: rest => do
    let s ← f answers
    let out ← processRecs answers rest
    return s :: out

/-- One rule's evaluation inside the `try` block (`src/policy_generator.py`
lines 160-175): `error` when the condition or a template raises, `ok
Option.none` when the rule does not apply, `ok (some suggestion)` when it
does. -/
def evalRuleOutcome (answers : Answers) (rule : PolicyRule) : Except PyErr (Option Suggestion) := do
  let b ← rule.condition answers
  if b then
    let recs ← processRecs answers rule.recommendations
    return some { id := rule.id, policy := rule.policy,
                  description := rule.description, recommendations := recs }
  else
    return Option.none

/-- `generate_policy_suggestions` (`src/policy_generator.py` lines
147-181): iterate the rules in table order, appending the suggestion of
every applicable rule and skipping (with a logged warning, not modelled)
every rule whose evaluation raises. -/
def generate_policy_suggestions (rules : List PolicyRule) (answers : Answers) : List Suggestion :=
  match rules with
  | [] => []
  | rule :: rest =>
    match evalRuleOutcome answers rule with
    | .ok (some s) => s :: generate_policy_suggestions rest answers
    | _ => generate_policy_suggestions rest answers

/-- The in-memory session state the manager owns (`st.session_state`):
the answer map, the current question index, the completed flag and the
session name.  Index and flag are kept as `Value` because the import path
installs whatever validated value the snapshot holds (Python attributes
are untyped; a `True` index passes the `isinstance(.., int)` check). -/
structure SessionState where
  answers : Answers
  current_question_index : Value
  completed : Value
  session_name : Option String
deriving Repr

/-- `_prepare_session_data` (`src/session_manager.py` lines 91-104): the
snapshot dict, with the wall-clock timestamp passed explicitly. -/
def prepare_session_data (st : SessionState) (timestamp : String) : Value :=
  .dict [
    ("answers", .dict st.answers),
    ("current_question_index", st.current_question_index),
    ("completed", st.completed),
    ("timestamp", .str timestamp),
    ("version", .str "1.0")]

/-- `export_session` (`src/session_manager.py` lines 106-114): the
structured value `json.dumps` serializes for download. -/
def export_session (st : SessionState) (timestamp : String) : Value :=
  prepare_session_data st timestamp

/-- Python `isinstance(v, int)` (`bool` is a subclass of `int`). -/
def isPyInt : Value → Bool
  | .int _ => true
  | .bool _ => true
  | _ => false

/-- Python `isinstance(v, bool)`. -/
def isPyBool : Value → Bool
  | .bool _ => true
  | _ => false

/-- The per-value check of `_validate_session_data` (`src/
session_manager.py` lines 193-209): scalars pass, lists must hold scalars
only, dicts must hold scalar-or-list values only, anything else (`None`)
fails. -/
def validAnswerValue : Value → Bool
  | .str _ => true
  | .int _ => true
  | .float _ => true
  | .bool _ => true
  | .list xs => xs.all (fun v => match v with
      | .str _ => true | .int _ => true | .float _ => true | .bool _ => true
      | _ => false)
  | .dict kvs => kvs.all (fun kv => match kv.2 with
      | .str _ => true | .int _ => true | .float _ => true | .bool _ => true
      | .list _ => true
      | _ => false)
  | .none => false

/-- `_validate_session_data` (`src/session_manager.py` lines 179-219) on
the entries of the parsed snapshot dict: `answers` must be a dict of
permitted values, `current_question_index` an `int` (any value — no range
check), `completed` a `bool`. -/
def validate_session_data (entries : Answers) : Bool :=
  match pyGetD entries "answers" (.dict []) with
  | .dict items =>
    items.all (fun kv => validAnswerValue kv.2) &&
    isPyInt (pyGetD entries "current_question_index" (.int 0)) &&
    isPyBool (pyGetD entries "completed" (.bool false))
  | _ => false

/-- Python `s.isalnum()` on a string (ASCII classification; the generated
name is display-only, so non-ASCII classification differences with Python
never change a return value or the installed state). -/
def strIsAlnum (s : String) : Bool :=
  !s.isEmpty && s.data.all Char.isAlphanum

/-- The filename-safe name `"".join(c if c.isalnum() else "_" for c in
system_name)` (`src/session_manager.py` lines 163-165): per-character for
a string, per-element for a list (raising `AttributeError` on a non-string
element), per-key for a dict; non-iterable values raise `TypeError`.  This
runs after the snapshot is installed, so a raise here makes
`import_session` report failure with the state already replaced. -/
def joinSafeName : Value → Except PyErr String
  | .str s => .ok (String.mk (s.data.map (fun c => if c.isAlphanum then c else '_')))
  | .list xs =>
    if xs.all (fun v => match v with | .str _ => true | _ => false) then
      .ok (String.join (xs.map (fun v => match v with
        | .str s => if strIsAlnum s then s else "_"
        | _ => "_")))
    else .error (.attributeError "object has no attribute isalnum")
  | .dict kvs =>
    .ok (String.join (kvs.map (fun kv => if strIsAlnum kv.1 then kv.1 else "_")))
  | _ => .error (.typeError "object is not iterable")

/-- The three required snapshot fields (`src/session_manager.py` line 130). -/
def required_keys : List String := ["answers", "current_question_index", "completed"]

/-- `import_session` (`src/session_manager.py` lines 116-177) with local
storage disabled (the app constructs `SessionManager()` with the default
`use_local_storage=False`; saving to disk is the out-of-scope persistence
boundary).  The parse outcome of `json.loads` is the first argument; the
result carries the returned boolean, the resulting state and the
`st.error` message, if one was reported.  A non-dict parsed value never
installs anything: either a required-key membership test fails or raises,
or `_validate_session_data`'s `.get` raises, and every raise is caught by
the `except` clauses with the state untouched. -/
def import_session (parsed : Except String Value) (st : SessionState) (timestamp : String) :
    Bool × SessionState × Option String :=
  match parsed with
  | .error _ => (false, st, some "Invalid JSON format in the uploaded file.")
  | .ok data =>
    match data with
    | .dict entries =>
      if required_keys.all (fun k => entries.any (fun kv => kv.1 == k)) then
        if validate_session_data entries then
          let answers1 := match pyGetD entries "answers" (.dict []) with
            | .dict items => items
            | _ => []
          let installed : SessionState :=
            { answers := answers1,
              current_question_index := pyGetD entries "current_question_index" (.int 0),
              completed := pyGetD entries "completed" (.bool false),
              session_name := st.session_name }
          let system_name := pyGetD answers1 "system_name" (.str "")
          if pyBool system_name then
            match joinSafeName system_name with
            | .ok safe =>
              (true, { installed with session_name := some (safe ++ "_imported_" ++ timestamp) },
                Option.none)
            | .error _ =>
              (false, installed, some "Error importing session: name generation raised")
          else
            (true, { installed with session_name := some ("imported_session_" ++ timestamp) },
              Option.none)
        else (false, st, some "The uploaded file contains potentially unsafe data.")
      else (false, st, some "Invalid session file format. Missing required fields.")
    | .list xs =>
      if required_keys.all (fun k => listMem (.str k) xs) then
        (false, st, some "Error importing session: list object has no attribute get")
      else (false, st, some "Invalid session file format. Missing required fields.")
    | .str s =>
      if required_keys.all (fun k => containsSub s k) then
        (false, st, some "Error importing session: str object has no attribute get")
      else (false, st, some "Invalid session file format. Missing required fields.")
    | _ => (false, st, some "Error importing session: argument is not iterable")

/-- An answer map on which the `gdpr_applicability` rule raises: iterating
the integer stored under `data_parties` is a `TypeError`. -/
def c2w_answers : Answers := [("data_parties", .int 0)]

/-- The rule table without its first rule. -/
def policy_rules_tail : List PolicyRule := [
  special_category_data_rule,
  cross_border_transfers_rule,
  data_retention_rule,
  access_controls_rule,
  encryption_rule,
  data_processor_agreements_rule,
  incident_response_rule]

/-- The suggestion the always-applicable `incident_response` rule
materializes (its recommendations are all literal strings). -/
def incident_suggestion : Suggestion :=
  { id := "incident_response",
    policy := "Incident Response Plan",
    description := "All systems should have an incident response plan for data breaches.",
    recommendations := [
      "Create a documented incident response procedure",
      "Define roles and responsibilities during a breach",
      "Establish notification timelines and procedures",
      "Implement a process for breach severity assessment",
      "Conduct regular incident response drills"] }

/-- The rule table without its last rule. -/
def policy_rules_front : List PolicyRule := [
  gdpr_applicability_rule,
  special_category_data_rule,
  cross_border_transfers_rule,
  data_retention_rule,
  access_controls_rule,
  encryption_rule,
  data_processor_agreements_rule]

/-- Whether a parsed snapshot value fails the structure/type validation of
`import_session`: not a dict, a required key missing, or
`_validate_session_data` rejecting it. -/
def failsStructure : Value → Bool
  | .dict entries =>
    !(required_keys.all (fun k => entries.any (fun kv => kv.1 == k))) ||
      !(validate_session_data entries)
  | _ => true

/-- A concrete in-memory session state used by closed instances. -/
def base_state : SessionState :=
  { answers := [("x", .str "y")], current_question_index := .int 2,
    completed := .bool false, session_name := Option.none }

/-- A well-formed snapshot with empty answers, an arbitrary integer index
and `completed = true`, as `json.loads` would produce it. -/
def indexSnapshot (idx : Int) : Value :=
  .dict [("answers", .dict []),
         ("current_question_index", .int idx),
         ("completed", .bool true)]

/-- The value types claim C5 permits in the answer map: string, number
(int or float), boolean, or list of strings. -/
def permittedClaimValue : Value → Bool
  | .str _ => true
  | .int _ => true
  | .float _ => true
  | .bool _ => true
  | .list xs => xs.all (fun v => match v with | .str _ => true | _ => false)
  | _ => false

/-- Whether the `system_name` answer (if any) survives the post-install
session-name generation of `import_session`: strings and lists are
iterable, and falsy values skip name generation entirely; a truthy number
or boolean would make `"".join(...)` raise. -/
def systemNameSafe (a : Answers) : Bool :=
  match lookupV a "system_name" with
  | Option.none => true
  | some (.str _) => true
  | some (.list _) => true
  | some v => !pyBool v

/-- A session whose answers all have permitted types but whose
`system_name` is the truthy number `1`. -/
def c5x_state : SessionState :=
  { answers := [("system_name", .int 1)], current_question_index := .int 0,
    completed := .bool false, session_name := Option.none }

/-- A session exercising every value type claim C5 permits, with a
string-valued `system_name`. -/
def c5w_state : SessionState :=
  { answers := [("system_name", .str "Sys 1"), ("count", .int 3),
                ("score", .float 3), ("active", .bool true),
                ("tags", .list [.str "a", .str "b"])],
    current_question_index := .int 4, completed := .bool true,
    session_name := Option.none }

/-- The answer map of the spec's repeated-section scenario: one system
`"A"` with its purpose and responsible-party children answered. -/
def c6w_answers : Answers :=
  [("systems", .list [.str "A"]),
   ("system_purpose_A", .str "x"),
   ("system_responsible_A", .list [.str "Bob"])]

/-- A repeated section with one required child (answered below) and one
optional text child (unanswered below). -/
def c6x_node : CatalogNode :=
  { node := { id := "n", type := "repeated_section" },
    repeat_for := "xs",
    questions := [
      { id := "p_\x7bitem\x7d", type := "text", required := true },
      { id := "note_\x7bitem\x7d", type := "text" }] }

/-- Answers for `c6x_node`: a one-item driving list with the required
child answered and the optional child unanswered. -/
def c6x_answers : Answers :=
  [("xs", .list [.str "A"]), ("p_A", .str "v")]

/-- Whether a value is a string or a list (the shapes whose `len` and
iteration are total among the permitted answer shapes). -/
def strOrList : Value → Bool
  | .str _ => true
  | .list _ => true
  | _ => false

/-- Whether a value is a string. -/
def isStrV : Value → Bool
  | .str _ => true
  | _ => false

/-- The plain (non-special) child-question kinds whose steady-state render
never raises: text, multiple choice, and single choice with a non-empty
option list. -/
def plainChildOk (q : Question) : Bool :=
  q.type == "text" || q.type == "multiple_choice" ||
    (q.type == "single_choice" && !q.options.isEmpty)

/-- A driving list whose single item holds placeholder-unsafe characters. -/
def c8w_answers : Answers := [("systems", .list [.str "we\"ird[]\x7b\x7d"])]

/-- A driving list whose single item is the empty string. -/
def c8x_answers : Answers := [("systems", .list [.str ""])]

/-- A successful `lookupV` finds an entry of the map. -/
theorem lookupV_mem {a : Answers} {k : String} {v : Value}
    (h : lookupV a k = some v) : (k, v) ∈ a := by
  induction a with
  | nil => simp [lookupV] at h
  | cons kv rest ih =>
    obtain ⟨k', v'⟩ := kv
    by_cases hk : (k' == k) = true
    · have hke : k' = k := eq_of_beq hk
      subst hke
      simp [lookupV, hk] at h
      subst h
      exact List.mem_cons_self _ _
    · simp [lookupV, hk] at h
      exact List.mem_cons_of_mem _ (ih h)

/-- Claim C1: for every question carrying a condition whose referenced
question id is absent from the answer map, `should_show_question` returns
`false`, whatever the condition's operator and value (fail-closed,
`src/app.py` lines 68-69). -/
theorem c1_missing_dependency_hides (q : Question) (a : Answers) (c : Condition)
    (hc : q.condition = some c) (ha : lookupV a c.question_id = Option.none) :
    should_show_question q a = false := by
  simp [should_show_question, hc, ha]

/-- Witness for C1: the catalog's `additional_responsible` question is
hidden on an empty answer map. -/
theorem c1_missing_dependency_hides_witness :
    should_show_question q_additional_responsible [] = false :=
  c1_missing_dependency_hides q_additional_responsible []
    { question_id := "has_additional_responsible", operator := "==", value := .bool true }
    rfl rfl

/-- Unfolding of `should_show_question` when the referenced answer exists:
the operator dispatch of `src/app.py` lines 73-82. -/
theorem should_show_some (q : Question) (a : Answers) (c : Condition) (answer : Value)
    (hc : q.condition = some c) (ha : lookupV a c.question_id = some answer) :
    should_show_question q a = opDispatch c.operator answer c.value := by
  simp [should_show_question, hc, ha]

/-- Claim C7: for a condition whose referenced id is present, operator
`in` shows the question iff the condition value is a list with the stored
answer as a member (non-list values always hide), and operator `contains`
shows it iff the stored answer is a list containing the condition value,
falling back to equality when the stored answer is not a list
(`src/app.py` lines 77-80). -/
theorem c7_in_contains_semantics (q : Question) (a : Answers) (c : Condition) (answer : Value)
    (hc : q.condition = some c) (ha : lookupV a c.question_id = some answer) :
    (c.operator = "in" →
      (should_show_question q a = true ↔
        ∃ xs, c.value = Value.list xs ∧ listMem answer xs = true)) ∧
    (c.operator = "contains" →
      (should_show_question q a = true ↔
        ((∃ xs, answer = Value.list xs ∧ listMem c.value xs = true) ∨
         ((∀ xs, answer ≠ Value.list xs) ∧ pyEq answer c.value = true)))) := by
  constructor
  · intro hop
    have h1 : should_show_question q a = inDispatch answer c.value := by
      rw [should_show_some q a c answer hc ha, hop]
      rfl
    rw [h1]
    cases hv : c.value with
    | list xs =>
      constructor
      · intro h
        exact ⟨xs, rfl, h⟩
      · rintro ⟨ys, hys, h⟩
        cases hys
        exact h
    | none => exact ⟨fun h => absurd h (by simp [inDispatch]), by rintro ⟨ys, hys, h⟩; cases hys⟩
    | bool b => exact ⟨fun h => absurd h (by simp [inDispatch]), by rintro ⟨ys, hys, h⟩; cases hys⟩
    | int n => exact ⟨fun h => absurd h (by simp [inDispatch]), by rintro ⟨ys, hys, h⟩; cases hys⟩
    | float x => exact ⟨fun h => absurd h (by simp [inDispatch]), by rintro ⟨ys, hys, h⟩; cases hys⟩
    | str s => exact ⟨fun h => absurd h (by simp [inDispatch]), by rintro ⟨ys, hys, h⟩; cases hys⟩
    | dict kvs => exact ⟨fun h => absurd h (by simp [inDispatch]), by rintro ⟨ys, hys, h⟩; cases hys⟩
  · intro hop
    have h1 : should_show_question q a = containsDispatch answer c.value := by
      rw [should_show_some q a c answer hc ha, hop]
      rfl
    rw [h1]
    cases answer with
    | list xs =>
      constructor
      · intro h
        exact Or.inl ⟨xs, rfl, h⟩
      · rintro (⟨ys, hys, h⟩ | ⟨hall, _⟩)
        · cases hys
          exact h
        · exact absurd rfl (hall xs)
    | none =>
      constructor
      · intro h
        exact Or.inr ⟨(fun ys hy => by cases hy), h⟩
      · rintro (⟨ys, hys, _⟩ | ⟨_, h⟩)
        · cases hys
        · exact h
    | bool b =>
      constructor
      · intro h
        exact Or.inr ⟨(fun ys hy => by cases hy), h⟩
      · rintro (⟨ys, hys, _⟩ | ⟨_, h⟩)
        · cases hys
        · exact h
    | int n =>
      constructor
      · intro h
        exact Or.inr ⟨(fun ys hy => by cases hy), h⟩
      · rintro (⟨ys, hys, _⟩ | ⟨_, h⟩)
        · cases hys
        · exact h
    | float x =>
      constructor
      · intro h
        exact Or.inr ⟨(fun ys hy => by cases hy), h⟩
      · rintro (⟨ys, hys, _⟩ | ⟨_, h⟩)
        · cases hys
        · exact h
    | str s =>
      constructor
      · intro h
        exact Or.inr ⟨(fun ys hy => by cases hy), h⟩
      · rintro (⟨ys, hys, _⟩ | ⟨_, h⟩)
        · cases hys
        · exact h
    | dict kvs =>
      constructor
      · intro h
        exact Or.inr ⟨(fun ys hy => by cases hy), h⟩
      · rintro (⟨ys, hys, _⟩ | ⟨_, h⟩)
        · cases hys
        · exact h

/-- Witness for C7: a condition with operator `in` over the list value
`["a", "b"]` and the stored answer `"a"` shows the question. -/
theorem c7_in_contains_semantics_witness :
    should_show_question
      { id := "x", type := "text",
        condition := some { question_id := "dep", operator := "in",
                            value := .list [.str "a", .str "b"] } }
      [("dep", .str "a")] = true :=
  ((c7_in_contains_semantics
      { id := "x", type := "text",
        condition := some { question_id := "dep", operator := "in",
                            value := .list [.str "a", .str "b"] } }
      [("dep", .str "a")]
      { question_id := "dep", operator := "in", value := .list [.str "a", .str "b"] }
      (.str "a") rfl rfl).1 rfl).mpr ⟨[.str "a", .str "b"], rfl, rfl⟩

/-- `generate_policy_suggestions` distributes over concatenation of the
rule list: each rule contributes independently, in order. -/
theorem generate_append (l1 l2 : List PolicyRule) (a : Answers) :
    generate_policy_suggestions (l1 ++ l2) a =
      generate_policy_suggestions l1 a ++ generate_policy_suggestions l2 a := by
  induction l1 with
  | nil => simp [generate_policy_suggestions]
  | cons r rest ih =>
    simp only [List.cons_append, generate_policy_suggestions]
    cases evalRuleOutcome a r with
    | ok o =>
      cases o with
      | none => exact ih
      | some s => simp [ih]
    | error e => exact ih

/-- Claim C4: `generate_policy_suggestions` is a pure function of the
answer map; evaluating the fixed rule table twice on the same (unchanged)
answers yields identical suggestion sequences — same suggestions, same
materialized strings, same rule-table order (`src/policy_generator.py`
lines 147-181 read only `answers` and the fixed table). -/
theorem c4_generate_deterministic (answers : Answers) :
    generate_policy_suggestions policy_rules answers =
      generate_policy_suggestions policy_rules answers := rfl

/-- Claim C2: a rule of the fixed table whose condition or recommendation
template raises is skipped — the output is exactly the concatenation of
the suggestions of the rules before and after it, and, the embedding
being total, no exception propagates (`src/policy_generator.py` lines
159-179, the per-rule `try`/`except`). -/
theorem c2_raising_rule_skipped (answers : Answers) (l1 : List PolicyRule)
    (r : PolicyRule) (l2 : List PolicyRule) (e : PyErr)
    (hsplit : policy_rules = l1 ++ r :: l2)
    (herr : evalRuleOutcome answers r = .error e) :
    generate_policy_suggestions policy_rules answers =
      generate_policy_suggestions l1 answers ++ generate_policy_suggestions l2 answers := by
  rw [hsplit, generate_append]
  congr 1
  simp [generate_policy_suggestions, herr]

/-- Witness for C2: on `\x7b"data_parties": 0\x7d` the first rule's
condition raises `TypeError`, and the output equals the evaluation of the
remaining seven rules. -/
theorem c2_raising_rule_skipped_witness :
    evalRuleOutcome c2w_answers gdpr_applicability_rule =
        .error (.typeError "object is not iterable") ∧
      generate_policy_suggestions policy_rules c2w_answers =
        generate_policy_suggestions [] c2w_answers ++
          generate_policy_suggestions policy_rules_tail c2w_answers :=
  ⟨rfl, c2_raising_rule_skipped c2w_answers [] gdpr_applicability_rule policy_rules_tail
    (.typeError "object is not iterable") rfl rfl⟩

/-- Claim C9: for every answer map (the empty one included) the output of
`generate_policy_suggestions` on the fixed table contains the
`incident_response` suggestion — its condition is the constant `True` and
its recommendations are literal strings — so the output is never empty
(`src/policy_generator.py` lines 132-144). -/
theorem c9_incident_response_always_present (answers : Answers) :
    incident_suggestion ∈ generate_policy_suggestions policy_rules answers ∧
      generate_policy_suggestions policy_rules answers ≠ [] := by
  have hsplit : policy_rules = policy_rules_front ++ [incident_response_rule] := rfl
  have hlast : generate_policy_suggestions [incident_response_rule] answers =
      [incident_suggestion] := rfl
  have hmem : incident_suggestion ∈ generate_policy_suggestions policy_rules answers := by
    rw [hsplit, generate_append, hlast]
    exact List.mem_append_right _ (List.mem_singleton_self _)
  exact ⟨hmem, List.ne_nil_of_mem hmem⟩

/-- Claim C3: when the uploaded string is not valid JSON, or parses to a
value that fails the structure/type validation, `import_session` returns
`False`, reports an error, and leaves the in-memory answers, question
index and completed flag (indeed the whole state) exactly as they were
(`src/session_manager.py` lines 116-177: every failing branch returns
before any assignment into the session state). -/
theorem c3_failed_import_preserves_state (st : SessionState) (ts : String)
    (parsed : Except String Value)
    (h : match parsed with
         | .error _ => True
         | .ok d => failsStructure d = true) :
    (import_session parsed st ts).1 = false ∧
      (import_session parsed st ts).2.1 = st ∧
      ((import_session parsed st ts).2.2).isSome = true := by
  cases parsed with
  | error e => exact ⟨rfl, rfl, rfl⟩
  | ok d =>
    cases d with
    | dict entries =>
      simp only [failsStructure, Bool.or_eq_true, Bool.not_eq_eq_eq_not, Bool.not_true] at h
      simp only [import_session]
      rcases h with h | h
      · rw [h]
        exact ⟨rfl, rfl, rfl⟩
      · rw [h]
        cases hk : required_keys.all (fun k => entries.any (fun kv => kv.1 == k)) with
        | false => exact ⟨rfl, rfl, rfl⟩
        | true => exact ⟨rfl, rfl, rfl⟩
    | list xs =>
      simp only [import_session]
      cases hk : required_keys.all (fun k => listMem (.str k) xs) with
      | false => exact ⟨rfl, rfl, rfl⟩
      | true => exact ⟨rfl, rfl, rfl⟩
    | str s =>
      simp only [import_session]
      cases hk : required_keys.all (fun k => containsSub s k) with
      | false => exact ⟨rfl, rfl, rfl⟩
      | true => exact ⟨rfl, rfl, rfl⟩
    | none => exact ⟨rfl, rfl, rfl⟩
    | bool b => exact ⟨rfl, rfl, rfl⟩
    | int n => exact ⟨rfl, rfl, rfl⟩
    | float x => exact ⟨rfl, rfl, rfl⟩

/-- Witness for C3: a malformed-JSON outcome leaves a concrete state
untouched and reports an error. -/
theorem c3_failed_import_preserves_state_witness :
    (import_session (.error "Expecting value") base_state "t").1 = false ∧
      (import_session (.error "Expecting value") base_state "t").2.1 = base_state ∧
      ((import_session (.error "Expecting value") base_state "t").2.2).isSome = true :=
  c3_failed_import_preserves_state base_state "t" (.error "Expecting value") trivial

/-- Claim C10: `_validate_session_data` only checks that
`current_question_index` is an `int` — no range check against the catalog
length — so a well-formed snapshot imports successfully and installs an
index that is negative or at least `questions.length`
(`src/session_manager.py` lines 140-145 and 211-213). -/
theorem c10_no_index_range_check (idx : Int) (st : SessionState) (ts : String)
    (hrange : idx < 0 ∨ (questions.length : Int) ≤ idx) :
    import_session (.ok (indexSnapshot idx)) st ts =
      (true,
        { answers := [], current_question_index := .int idx, completed := .bool true,
          session_name := some ("imported_session_" ++ ts) },
        Option.none) := rfl

/-- Witness for C10: importing a snapshot with index `-3` (negative, and
the catalog has 9 questions) succeeds and installs `-3`. -/
theorem c10_no_index_range_check_witness :
    import_session (.ok (indexSnapshot (-3))) base_state "t" =
      (true,
        { answers := [], current_question_index := .int (-3), completed := .bool true,
          session_name := some ("imported_session_" ++ "t") },
        Option.none) :=
  c10_no_index_range_check (-3) base_state "t" (Or.inl (by decide))

/-- A value of a type claim C5 permits passes the import validation's
per-value check. -/
theorem permitted_imp_valid (v : Value) :
    permittedClaimValue v = true → validAnswerValue v = true := by
  cases v with
  | list xs =>
    intro h
    simp only [permittedClaimValue, List.all_eq_true] at h
    simp only [validAnswerValue, List.all_eq_true]
    intro x hx
    have := h x hx
    cases x <;> simp_all
  | none => intro h; cases h
  | bool b => intro _; rfl
  | int n => intro _; rfl
  | float x => intro _; rfl
  | str s => intro _; rfl
  | dict kvs => intro h; cases h

/-- A value found by `lookupV` satisfies any predicate `List.all` holds. -/
theorem all_of_lookupV {a : Answers} {p : String × Value → Bool} {k : String} {v : Value}
    (hall : a.all p = true) (h : lookupV a k = some v) : p (k, v) = true := by
  rw [List.all_eq_true] at hall
  exact hall (k, v) (lookupV_mem h)

/-- Claim C5, amended: exporting a session whose answers hold only
permitted value types (string, number, boolean, list of strings) and then
importing the result succeeds and reproduces the answers, the question
index and the completed flag — provided the `system_name` answer, if
present and truthy, is a string or a list of strings.  (A truthy numeric
or boolean `system_name` makes the post-install name generation of
`import_session` raise, so the function reports failure; see the
counterexample.) -/
theorem c5_export_import_round_trip (st st' : SessionState) (ts ts' : String)
    (hperm : st.answers.all (fun kv => permittedClaimValue kv.2) = true)
    (hidx : isPyInt st.current_question_index = true)
    (hcomp : isPyBool st.completed = true)
    (hsafe : systemNameSafe st.answers = true) :
    ∃ nm, import_session (.ok (export_session st ts)) st' ts' =
      (true,
        { answers := st.answers,
          current_question_index := st.current_question_index,
          completed := st.completed,
          session_name := some nm },
        Option.none) := by
  have hval : st.answers.all (fun kv => validAnswerValue kv.2) = true := by
    rw [List.all_eq_true] at hperm ⊢
    intro kv hkv
    exact permitted_imp_valid kv.2 (hperm kv hkv)
  have hv : validate_session_data
      [("answers", .dict st.answers),
       ("current_question_index", st.current_question_index),
       ("completed", st.completed),
       ("timestamp", .str ts),
       ("version", .str "1.0")] = true := by
    show (st.answers.all (fun kv => validAnswerValue kv.2) &&
      isPyInt st.current_question_index && isPyBool st.completed) = true
    rw [hval, hidx, hcomp]
    rfl
  have hmain : import_session (.ok (export_session st ts)) st' ts' =
      (if pyBool (pyGetD st.answers "system_name" (.str "")) = true then
        match joinSafeName (pyGetD st.answers "system_name" (.str "")) with
        | .ok safe =>
          ((true : Bool),
            ({ answers := st.answers,
               current_question_index := st.current_question_index,
               completed := st.completed,
               session_name := some (safe ++ "_imported_" ++ ts') } : SessionState),
            (Option.none : Option String))
        | .error _ =>
          (false,
            { answers := st.answers,
              current_question_index := st.current_question_index,
              completed := st.completed,
              session_name := st'.session_name },
            some "Error importing session: name generation raised")
      else
        (true,
          { answers := st.answers,
            current_question_index := st.current_question_index,
            completed := st.completed,
            session_name := some ("imported_session_" ++ ts') },
          Option.none)) := by
    simp only [import_session, export_session, prepare_session_data]
    rw [hv]
    rfl
  rw [hmain]
  cases hsys : lookupV st.answers "system_name" with
  | none =>
    have hgd : pyGetD st.answers "system_name" (.str "") = .str "" := by
      simp [pyGetD, hsys]
    rw [hgd]
    exact ⟨"imported_session_" ++ ts', rfl⟩
  | some v =>
    have hgd : pyGetD st.answers "system_name" (.str "") = v := by
      simp [pyGetD, hsys]
    rw [hgd]
    cases v with
    | str s =>
      cases hb : pyBool (.str s) with
      | true =>
        exact ⟨String.mk (s.data.map (fun c => if c.isAlphanum then c else '_')) ++
          "_imported_" ++ ts', rfl⟩
      | false =>
        exact ⟨"imported_session_" ++ ts', rfl⟩
    | list xs =>
      have hstr : xs.all (fun v => match v with | .str _ => true | _ => false) = true := by
        have := all_of_lookupV hperm hsys
        simpa [permittedClaimValue] using this
      cases hb : pyBool (.list xs) with
      | true =>
        have hj : joinSafeName (.list xs) = .ok (String.join (xs.map (fun v => match v with
            | .str s => if strIsAlnum s then s else "_"
            | _ => "_"))) := by
          simp [joinSafeName, hstr]
        rw [hj]
        exact ⟨String.join (xs.map (fun v => match v with
          | .str s => if strIsAlnum s then s else "_"
          | _ => "_")) ++ "_imported_" ++ ts', rfl⟩
      | false =>
        exact ⟨"imported_session_" ++ ts', rfl⟩
    | bool b =>
      have hnb : pyBool (.bool b) = false := by
        have h := hsafe
        simp only [systemNameSafe, hsys] at h
        simpa using h
      simp only [hnb]
      exact ⟨"imported_session_" ++ ts', rfl⟩
    | int n =>
      have hnb : pyBool (.int n) = false := by
        have h := hsafe
        simp only [systemNameSafe, hsys] at h
        simpa using h
      simp only [hnb]
      exact ⟨"imported_session_" ++ ts', rfl⟩
    | float x =>
      have hnb : pyBool (.float x) = false := by
        have h := hsafe
        simp only [systemNameSafe, hsys] at h
        simpa using h
      simp only [hnb]
      exact ⟨"imported_session_" ++ ts', rfl⟩
    | none =>
      exact ⟨"imported_session_" ++ ts', rfl⟩
    | dict kvs =>
      have hbad := all_of_lookupV hperm hsys
      simp [permittedClaimValue] at hbad

/-- Witness for C5: a session with a string, an int, a float, a boolean
and a list-of-strings answer round-trips through export/import. -/
theorem c5_export_import_round_trip_witness :
    ∃ nm, import_session (.ok (export_session c5w_state "t1")) base_state "t2" =
      (true,
        { answers := c5w_state.answers,
          current_question_index := c5w_state.current_question_index,
          completed := c5w_state.completed,
          session_name := some nm },
        Option.none) :=
  c5_export_import_round_trip c5w_state base_state "t1" "t2" rfl rfl rfl rfl

/-- Counterexample to C5 as stated: a session whose answers all have
permitted types (`system_name` is the number `1`) exports and re-imports
with `import_session` returning `False` — the post-install name
generation iterates the integer and raises, and the `except` clause
reports failure. -/
theorem c5_round_trip_counterexample :
    (c5x_state.answers.all (fun kv => permittedClaimValue kv.2)) = true ∧
      isPyInt c5x_state.current_question_index = true ∧
      isPyBool c5x_state.completed = true ∧
      (import_session (.ok (export_session c5x_state "t1")) c5x_state "t2").1 = false :=
  ⟨rfl, rfl, rfl, rfl⟩

/-- The conjunction-threading child loop equals the verdict-collecting one
with the verdicts conjoined onto the accumulator. -/
theorem renderChildren_eq_verdicts (qs : List Question) (item : String) (a : Answers) (acc : Bool) :
    renderChildren qs item a acc =
      (renderChildrenV qs item a).map (fun p => (p.1, p.2.1, acc && p.2.2.all id)) := by
  induction qs generalizing a acc with
  | nil => simp [renderChildren, renderChildrenV, Except.map]
  | cons q rest ih =>
    simp only [renderChildren, renderChildrenV]
    cases hs : should_show_question (substChildCondition q item) a with
    | true =>
      simp only [if_true]
      cases hr : render_question (substChildCondition q item) (some item) a with
      | error e => rfl
      | ok p =>
        obtain ⟨a1, b⟩ := p
        dsimp only
        rw [ih]
        cases hv : renderChildrenV rest item a1 with
        | error e => rfl
        | ok p2 =>
          obtain ⟨rest1, a2, vs⟩ := p2
          simp [Except.map, Bool.and_assoc]
    | false =>
      simp only [Bool.false_eq_true, if_false]
      rw [ih]
      cases hv : renderChildrenV rest item a with
      | error e => rfl
      | ok p2 =>
        obtain ⟨rest1, a2, vs⟩ := p2
        simp [Except.map]

/-- The conjunction-threading item loop equals the verdict-collecting one
with all verdicts conjoined onto the accumulator. -/
theorem renderItems_eq_verdicts (items : List Value) (qs : List Question) (a : Answers) (acc : Bool) :
    renderItems items qs a acc =
      (renderItemsV items qs a).map (fun p => (p.1, acc && p.2.all id)) := by
  induction items generalizing qs a acc with
  | nil => simp [renderItems, renderItemsV, Except.map]
  | cons v rest ih =>
    cases v with
    | str s =>
      simp only [renderItems, renderItemsV]
      rw [renderChildren_eq_verdicts]
      cases hc : renderChildrenV qs (pyStrip (pyStrip (pyStrip s "\"") "[") "]") a with
      | error e => rfl
      | ok p =>
        obtain ⟨qs1, a1, vs1⟩ := p
        simp only [Except.map]
        rw [ih]
        cases hv : renderItemsV rest qs1 a1 with
        | error e => rfl
        | ok p2 =>
          obtain ⟨a2, vs2⟩ := p2
          simp [Except.map, List.all_append, Bool.and_assoc]
    | none => rfl
    | bool b => rfl
    | int n => rfl
    | float x => rfl
    | list xs => rfl
    | dict kvs => rfl


/-- Claim C6, amended: a repeated section whose `repeat_for` key is absent
or maps to an empty list is reported not fully answered (blocking
traversal); when the driving list is non-empty and the rendering pass
reports every visible child instance answered for every item — including
non-required children, whose being unanswered also blocks — the section is
reported answered (`src/app.py` lines 514-551). -/
theorem c6_repeated_section_answeredness (s : CatalogNode) (a : Answers) :
    ((lookupV a s.repeat_for = Option.none ∨ lookupV a s.repeat_for = some (Value.list [])) →
      render_repeated_section s a = .ok (a, false)) ∧
    (∀ xs a' vs, lookupV a s.repeat_for = some (Value.list xs) → xs ≠ [] →
      sectionVerdicts s xs a = .ok (a', vs) → vs.all id = true →
      render_repeated_section s a = .ok (a', true)) := by
  constructor
  · rintro (h | h)
    · unfold render_repeated_section
      rw [show pyGetD a s.repeat_for (.list []) = .list [] from by simp [pyGetD, h]]
      rfl
    · unfold render_repeated_section
      rw [show pyGetD a s.repeat_for (.list []) = .list [] from by simp [pyGetD, h]]
      rfl
  · intro xs a' vs hl hne hv hall
    unfold render_repeated_section
    rw [show pyGetD a s.repeat_for (.list []) = .list xs from by simp [pyGetD, hl]]
    have hpb : pyBool (.list xs) = true := by
      cases xs with
      | nil => exact absurd rfl hne
      | cons x r => rfl
    dsimp only
    rw [show (!pyBool (Value.list xs)) = false from by rw [hpb]; rfl]
    simp only [Bool.false_eq_true, if_false]
    show renderItems xs s.questions a true = .ok (a', true)
    rw [renderItems_eq_verdicts]
    unfold sectionVerdicts at hv
    rw [hv]
    simp [Except.map, hall]

/-- Witness for C6: the spec scenario — driving list `systems = ["A"]`,
`system_purpose_A = "x"`, `system_responsible_A = ["Bob"]` — makes the
`system_details` repeated section fully answered. -/
theorem c6_repeated_section_answeredness_witness :
    render_repeated_section system_details_node c6w_answers = .ok (c6w_answers, true) :=
  (c6_repeated_section_answeredness system_details_node c6w_answers).2
    [.str "A"] c6w_answers [true, true] rfl (List.cons_ne_nil _ _) rfl rfl

/-- Counterexample to C6 as stated: a repeated section with a non-empty
driving list whose required children are all answered is still reported
unanswered, because its non-required text child is unanswered
(`render_question` requires the resolved id to be a key of the answer map
even for non-required questions, `src/app.py` line 282). -/
theorem c6_repeated_section_counterexample :
    lookupV c6x_answers "xs" = some (.list [.str "A"]) ∧
      (c6x_node.questions.all (fun q => !q.required ||
        (match answered_check q (pyReplace q.id "\x7bitem\x7d" "A") c6x_answers with
         | .ok b => b
         | .error _ => false))) = true ∧
      render_repeated_section c6x_node c6x_answers = .ok (c6x_answers, false) :=
  ⟨rfl, rfl, rfl⟩

/-- Looking up the key just written by `setKey` yields the new value. -/
theorem lookupV_setKey_self (a : Answers) (k : String) (v : Value) :
    lookupV (setKey a k v) k = some v := by
  induction a with
  | nil => simp [setKey, lookupV]
  | cons kv rest ih =>
    obtain ⟨k', v'⟩ := kv
    by_cases h : (k' == k) = true
    · simp [setKey, h, lookupV]
    · simp only [setKey, h]
      rw [if_neg (by simpa using h)]
      simp [lookupV, h, ih]

/-- `setKey` preserves a predicate all entries satisfy, provided the new
entry satisfies it. -/
theorem setKey_all {p : String × Value → Bool} (a : Answers) (k : String) (v : Value)
    (hall : a.all p = true) (hv : p (k, v) = true) : (setKey a k v).all p = true := by
  induction a with
  | nil => simp [setKey, hv]
  | cons kv rest ih =>
    obtain ⟨k', v'⟩ := kv
    simp only [List.all_cons, Bool.and_eq_true] at hall
    by_cases h : (k' == k) = true
    · simp only [setKey]
      rw [if_pos (by simpa using h)]
      simp [List.all_cons, hv, hall.2]
    · simp only [setKey]
      rw [if_neg (by simpa using h)]
      simp [List.all_cons, hall.1, ih hall.2]

/-- `answeredRequirement` never raises on a string or list value: the
only fallible step is `len`. -/
theorem answeredRequirement_total (q : Question) (v : Value)
    (hv : strOrList v = true) :
    ∃ b, answeredRequirement q v = .ok b := by
  have hlen : ∃ n, pyLen v = .ok n := by
    cases v with
    | str s => exact ⟨s.length, rfl⟩
    | list xs => exact ⟨xs.length, rfl⟩
    | none => simp [strOrList] at hv
    | bool b => simp [strOrList] at hv
    | int n => simp [strOrList] at hv
    | float x => simp [strOrList] at hv
    | dict kvs => simp [strOrList] at hv
  obtain ⟨n, hn⟩ := hlen
  unfold answeredRequirement
  by_cases hr : q.required = true
  · simp only [hr, if_true]
    by_cases h1 : (q.type == "multiple_choice") = true
    · simp [h1, hn]
    · simp only [h1, Bool.false_eq_true, if_false]
      by_cases h2 : (q.type == "text") = true
      · simp only [h2, if_true]
        by_cases h3 : q.store_as_list = true
        · simp [h3, hn]
        · rw [if_neg h3]
          exact ⟨pyBool v, rfl⟩
      · simp only [h2, Bool.false_eq_true, if_false]
        by_cases h4 : (q.type == "toggle") = true
        · simp [h4]
        · simp [h4]
  · rw [if_neg hr]
    exact ⟨true, rfl⟩

/-- `answered_check` never raises when the stored value at the checked id
(if any) is a string or a list. -/
theorem answered_check_total (q : Question) (qid : String) (a : Answers)
    (hl : ∀ v, lookupV a qid = some v → strOrList v = true) :
    ∃ b, answered_check q qid a = .ok b := by
  unfold answered_check
  cases h : lookupV a qid with
  | none => exact ⟨false, rfl⟩
  | some v => exact answeredRequirement_total q v (hl v h)

/-- `pyIter` never raises on a string or list. -/
theorem pyIter_strOrList (v : Value) (hv : strOrList v = true) :
    ∃ l, pyIter v = .ok l := by
  cases v with
  | str s => exact ⟨_, rfl⟩
  | list xs => exact ⟨xs, rfl⟩
  | none => simp [strOrList] at hv
  | bool b => simp [strOrList] at hv
  | int n => simp [strOrList] at hv
  | float x => simp [strOrList] at hv
  | dict kvs => simp [strOrList] at hv

/-- A steady-state render of a plain child question (text, multiple
choice, or single choice with options) on an answer map whose values are
all strings or lists never raises, and the updated map again holds only
strings and lists. -/
theorem render_question_total (q : Question) (item : Option String) (a : Answers)
    (hq : plainChildOk q = true)
    (hvals : a.all (fun kv => strOrList kv.2) = true) :
    ∃ a1 b, render_question q item a = .ok (a1, b) ∧
      a1.all (fun kv => strOrList kv.2) = true := by
  simp only [plainChildOk, Bool.or_eq_true, Bool.and_eq_true] at hq
  rcases hq with (ht | hmc) | ⟨hsc, ho⟩
  · -- q.type = "text"
    have hty : q.type = "text" := eq_of_beq ht
    unfold render_question
    rw [hty]
    simp only [show (("text" : String) == "special") = false from rfl,
      show (("text" : String) == "text") = true from rfl,
      Bool.false_eq_true, if_false, if_true]
    by_cases hsl : q.store_as_list = true
    · rw [if_pos hsl]
      cases hlk : lookupV a (resolveQid q item) with
      | some v =>
        have hv : strOrList v = true := all_of_lookupV hvals hlk
        simp only [Option.isSome_some, if_true]
        have hgd : pyGetD a (resolveQid q item) (.list []) = v := by
          simp [pyGetD, hlk]
        rw [hgd]
        obtain ⟨b, hb⟩ := answered_check_total q (resolveQid q item) a
          (fun w hw => all_of_lookupV hvals hw)
        cases hpb : pyBool v with
        | true =>
          obtain ⟨l, hit⟩ := pyIter_strOrList v hv
          rw [if_pos rfl, hit, hb]
          exact ⟨a, b, rfl, hvals⟩
        | false =>
          rw [if_neg (by simp), hb]
          exact ⟨a, b, rfl, hvals⟩
      | none =>
        simp only [Option.isSome_none, Bool.false_eq_true, if_false]
        have hgd : pyGetD (setKey a (resolveQid q item) (.list [])) (resolveQid q item)
            (.list []) = .list [] := by
          simp [pyGetD, lookupV_setKey_self]
        rw [hgd]
        have hinv : (setKey a (resolveQid q item) (.list [])).all
            (fun kv => strOrList kv.2) = true :=
          setKey_all a _ _ hvals rfl
        obtain ⟨b, hb⟩ := answered_check_total q (resolveQid q item)
          (setKey a (resolveQid q item) (.list []))
          (fun w hw => all_of_lookupV hinv hw)
        rw [show pyBool (Value.list []) = false from rfl]
        rw [if_neg (by simp), hb]
        exact ⟨_, b, rfl, hinv⟩
    · rw [if_neg hsl]
      have hui : strOrList (pyGetD a (resolveQid q item) (.str "")) = true := by
        cases hlk : lookupV a (resolveQid q item) with
        | some v => simpa [pyGetD, hlk] using all_of_lookupV hvals hlk
        | none => simp [pyGetD, hlk]; rfl
      by_cases hpb : pyBool (pyGetD a (resolveQid q item) (.str "")) = true
      · rw [if_pos hpb]
        have hinv : (setKey a (resolveQid q item)
            (pyGetD a (resolveQid q item) (.str ""))).all
            (fun kv => strOrList kv.2) = true :=
          setKey_all a _ _ hvals hui
        obtain ⟨b, hb⟩ := answered_check_total q (resolveQid q item) _
          (fun w hw => all_of_lookupV hinv hw)
        rw [hb]
        exact ⟨_, b, rfl, hinv⟩
      · rw [if_neg hpb]
        obtain ⟨b, hb⟩ := answered_check_total q (resolveQid q item) a
          (fun w hw => all_of_lookupV hvals hw)
        rw [hb]
        exact ⟨a, b, rfl, hvals⟩
  · -- q.type = "multiple_choice"
    have hty : q.type = "multiple_choice" := eq_of_beq hmc
    unfold render_question
    rw [hty]
    simp only [show (("multiple_choice" : String) == "special") = false from rfl,
      show (("multiple_choice" : String) == "text") = false from rfl,
      show (("multiple_choice" : String) == "single_choice") = false from rfl,
      show (("multiple_choice" : String) == "multiple_choice") = true from rfl,
      Bool.false_eq_true, if_false, if_true]
    have hinv : (setKey a (resolveQid q item)
        (.list (match lookupV a (resolveQid q item) with
          | some (.list xs) => xs.filter (fun v => q.options.any (fun opt => pyEq v (.str opt)))
          | some v => if q.options.any (fun opt => pyEq v (.str opt)) then [v] else []
          | Option.none => []))).all (fun kv => strOrList kv.2) = true :=
      setKey_all a _ _ hvals rfl
    obtain ⟨b, hb⟩ := answered_check_total q (resolveQid q item) _
      (fun w hw => all_of_lookupV hinv hw)
    rw [hb]
    exact ⟨_, b, rfl, hinv⟩
  · -- q.type = "single_choice" with non-empty options
    have hty : q.type = "single_choice" := eq_of_beq hsc
    unfold render_question
    rw [hty]
    simp only [show (("single_choice" : String) == "special") = false from rfl,
      show (("single_choice" : String) == "text") = false from rfl,
      show (("single_choice" : String) == "single_choice") = true from rfl,
      Bool.false_eq_true, if_false, if_true]
    cases hopt : q.options with
    | nil => simp at ho; exact absurd hopt ho
    | cons o rest =>
      dsimp only
      have hsel : strOrList (match lookupV a (resolveQid q item) with
          | some v =>
            match (o :: rest).find? (fun opt => pyEq v (.str opt)) with
            | some opt => Value.str opt
            | Option.none => Value.str o
          | Option.none => Value.str o) = true := by
        cases lookupV a (resolveQid q item) with
        | some v =>
          dsimp only
          cases (o :: rest).find? (fun opt => pyEq v (.str opt)) with
          | some opt => rfl
          | none => rfl
        | none => rfl
      have hinv : (setKey a (resolveQid q item) _).all (fun kv => strOrList kv.2) = true :=
        setKey_all a _ _ hvals hsel
      obtain ⟨b, hb⟩ := answered_check_total q (resolveQid q item) _
        (fun w hw => all_of_lookupV hinv hw)
      rw [hb]
      exact ⟨_, b, rfl, hinv⟩

/-- The per-item condition substitution preserves the plain-child
property: it only rewrites the condition. -/
theorem substChildCondition_plainOk (q : Question) (item : String)
    (h : plainChildOk q = true) : plainChildOk (substChildCondition q item) = true := by
  unfold substChildCondition
  cases hc : q.condition with
  | none => exact h
  | some c => exact h

/-- The child loop of a repeated section never raises on plain children
over a string-or-list valued answer map, and preserves both properties. -/
theorem renderChildren_total (qs : List Question) (item : String) (a : Answers) (acc : Bool)
    (hq : qs.all plainChildOk = true)
    (hvals : a.all (fun kv => strOrList kv.2) = true) :
    ∃ qs1 a1 acc1, renderChildren qs item a acc = .ok (qs1, a1, acc1) ∧
      qs1.all plainChildOk = true ∧
      a1.all (fun kv => strOrList kv.2) = true := by
  induction qs generalizing a acc with
  | nil => exact ⟨[], a, acc, rfl, rfl, hvals⟩
  | cons q rest ih =>
    simp only [List.all_cons, Bool.and_eq_true] at hq
    have hmq : plainChildOk (substChildCondition q item) = true :=
      substChildCondition_plainOk q item hq.1
    unfold renderChildren
    cases hs : should_show_question (substChildCondition q item) a with
    | true =>
      rw [if_pos hs]
      obtain ⟨a1, b, hr, hinv⟩ :=
        render_question_total (substChildCondition q item) (some item) a hmq hvals
      rw [hr]
      dsimp only
      obtain ⟨rest1, a2, acc2, hrc, hq2, hv2⟩ := ih a1 (acc && b) hq.2 hinv
      rw [hrc]
      exact ⟨substChildCondition q item :: rest1, a2, acc2, rfl,
        by simp [List.all_cons, hmq, hq2], hv2⟩
    | false =>
      rw [if_neg (by simp [hs])]
      obtain ⟨rest1, a2, acc2, hrc, hq2, hv2⟩ := ih a acc hq.2 hvals
      rw [hrc]
      exact ⟨substChildCondition q item :: rest1, a2, acc2, rfl,
        by simp [List.all_cons, hmq, hq2], hv2⟩

/-- The item loop of a repeated section never raises when every item is a
string, the children are plain, and the answer values are strings or
lists. -/
theorem renderItems_total (items : List Value) (qs : List Question) (a : Answers) (acc : Bool)
    (hstr : items.all isStrV = true) (hq : qs.all plainChildOk = true)
    (hvals : a.all (fun kv => strOrList kv.2) = true) :
    ∃ r, renderItems items qs a acc = .ok r := by
  induction items generalizing qs a acc with
  | nil => exact ⟨(a, acc), rfl⟩
  | cons v rest ih =>
    simp only [List.all_cons, Bool.and_eq_true] at hstr
    cases v with
    | str s =>
      simp only [renderItems]
      obtain ⟨qs1, a1, acc1, hrc, hq1, hv1⟩ :=
        renderChildren_total qs (pyStrip (pyStrip (pyStrip s "\"") "[") "]") a acc hq hvals
      rw [hrc]
      exact ih qs1 a1 acc1 hstr.2 hq1 hv1
    | none => simp [isStrV] at hstr
    | bool b => simp [isStrV] at hstr
    | int n => simp [isStrV] at hstr
    | float x => simp [isStrV] at hstr
    | list xs => simp [isStrV] at hstr
    | dict kvs => simp [isStrV] at hstr

/-- Claim C8, amended: instantiating a repeated section whose children
are plain questions for a driving list of strings never raises, whatever
placeholder-unsafe characters (quotes, brackets, the empty string) the
items contain; however items equal to the empty string are NOT skipped —
they are processed like any other item, with the visibility check using
the child id instantiated with the empty string, while the rendered child
instance falls back to the raw template id (see the counterexample). -/
theorem c8_unsafe_items_never_raise (s : CatalogNode) (a : Answers) (xs : List Value)
    (hq : s.questions.all plainChildOk = true)
    (hitems : lookupV a s.repeat_for = some (.list xs))
    (hstr : xs.all isStrV = true)
    (hvals : a.all (fun kv => strOrList kv.2) = true) :
    ∃ r, render_repeated_section s a = .ok r := by
  unfold render_repeated_section
  rw [show pyGetD a s.repeat_for (.list []) = .list xs from by simp [pyGetD, hitems]]
  dsimp only
  cases xs with
  | nil => exact ⟨(a, false), rfl⟩
  | cons x r =>
    rw [show (!pyBool (Value.list (x :: r))) = false from rfl]
    simp only [Bool.false_eq_true, if_false]
    show ∃ out, renderItems (x :: r) s.questions a true = .ok out
    exact renderItems_total (x :: r) s.questions a true hstr hq hvals

/-- Witness for C8: a driving list whose item holds quotes, brackets and
braces renders without raising. -/
theorem c8_unsafe_items_never_raise_witness :
    ∃ r, render_repeated_section system_details_node c8w_answers = .ok r :=
  c8_unsafe_items_never_raise system_details_node c8w_answers
    [.str "we\"ird[]\x7b\x7d"] rfl rfl rfl rfl

/-- Counterexample to C8 as stated: an empty-string item is not skipped.
Rendering `system_details` over the driving list `[""]` processes the
empty item: the `system_responsible_` child falls back to its raw
template id (the `if item and ...` substitution guard is falsy) and
initializes that key, and the section is reported unanswered — whereas
skipping the item would leave the answer map unchanged and report the
section answered (the loop's conjunction starts at `True`). -/
theorem c8_empty_item_not_skipped_counterexample :
    render_repeated_section system_details_node c8x_answers =
      .ok ([("systems", .list [.str ""]),
            ("system_responsible_\x7bitem\x7d", .list [])], false) :=
  rfl
